import Mathlib

/-!
Verification of the miapy registration and plotting modules.

The repository is a configuration shim over an external image toolkit
(SimpleITK): similarity metric, optimizer, resampling and rendering are all
delegated to the external engine.  The embedding therefore represents image
handles symbolically, as trees of the external operations the shim applies
(`Image.cast`, `Image.normalize`, `Image.resample`), and represents one
engine run by an explicit `EngineOutcome` record (final transform, final
metric value, iteration count, stopping-condition description) supplied as a
parameter, since the engine is an external collaborator.  The control flow,
validation, message reporting, plotter event handling, mask classification
and branch structure are translated line by line from
`src/miapy/filtering/registration.py` and `src/miapy/plotting/plotter.py`.
-/

/-- Interpolator identifiers used by the shim (`sitk.sitkLinear`). -/
inductive Interp where
  | linear
deriving DecidableEq, Repr

/-- A transform handle produced by the external engine; its internal
parameterization is engine state and is kept opaque. -/
structure Transform where
  tid : Nat
deriving DecidableEq, Repr

/-- Symbolic image handle: a base handle or the result of one of the external
toolkit operations the shim applies to it.  `resample` records the reference
grid image, the transform, the interpolator, the default (out-of-bounds)
pixel value and the output pixel type exactly as passed to `sitk.Resample`. -/
inductive Image where
  | base (pixelId : Nat) (uid : Nat)
  | cast (img : Image) (pixelId : Nat)
  | normalize (img : Image)
  | resample (img : Image) (reference : Image) (transform : Transform)
      (interpolator : Interp) (defaultPixelValue : Rat) (outputPixelType : Nat)
deriving DecidableEq, Repr

/-- Pixel type of a symbolic image (`GetPixelIDValue`).  `cast` and `resample`
set the requested output type; `normalize` models `sitk.Normalize`
(itk::NormalizeImageFilter), whose output image type equals its input image
type (the ITK documentation notes that integral inputs therefore do not get
unit variance), so it preserves the pixel type. -/
def Image.getPixelIDValue : Image → Nat
  | Image.base p _ => p
  | Image.cast _ p => p
  | Image.normalize img => img.getPixelIDValue
  | Image.resample _ _ _ _ _ p => p

/-- Model token for the `sitk.sitkFloat32` pixel type identifier. -/
def sitkFloat32 : Nat := 8

/-- What one run of the external registration engine reports back:
`registration.Execute` returns the final transform, and the engine exposes
the final metric value, the optimizer iteration count and the stopping
condition description (registration.py lines 138-146). -/
structure EngineOutcome where
  finalTransform : Transform
  metricValue : Rat
  optimizerIteration : Nat
  stopConditionDescription : String
deriving DecidableEq, Repr

/-- Engine configuration assembled by `RigidMultiModalRegistration.__init__`
(registration.py lines 84-110): one field per `Set...` call. -/
structure RegistrationConfig where
  numberOfHistogramBins : Nat
  metricSamplingStrategyRandom : Bool
  metricSamplingPercentage : Rat
  interpolator : Interp
  learningRate : Rat
  numberOfIterations : Nat
  convergenceMinimumValue : Rat
  convergenceWindowSize : Nat
  estimateLearningRate : Bool
  scalesFromPhysicalShift : Bool
  shrinkFactors : List Nat
  smoothingSigmas : List Rat
  smoothingSigmasInPhysicalUnits : Bool
deriving DecidableEq, Repr

/-- Parameters for the registration (registration.py lines 20-33): the fixed
image and the plot directory path (empty string disables plotting). -/
structure RigidMultiModalRegistrationParams where
  fixed_image : Image
  plot_directory_path : String := ""
deriving DecidableEq, Repr

/-- The registration filter after construction (registration.py lines 77-110):
the six stored configuration fields plus the pre-built engine configuration.
`verbose` is the reporting flag of the `fltr.IFilter` base class.
Modelled from the spec: the base class module is not part of the staged
sources; the spec clause "if a verbose mode is enabled" is represented by
this boolean field. -/
structure RigidMultiModalRegistration where
  number_of_histogram_bins : Nat
  learning_rate : Rat
  step_size : Rat
  number_of_iterations : Nat
  shrink_factors : List Nat
  smoothing_sigmas : List Rat
  verbose : Bool
  registration : RegistrationConfig
deriving DecidableEq, Repr

/-- `RigidMultiModalRegistration.__init__` (registration.py lines 55-110):
raises ValueError when the two sequences differ in length, otherwise stores
the six configuration fields and builds the engine configuration. -/
def RigidMultiModalRegistration.init (number_of_histogram_bins : Nat)
    (learning_rate : Rat) (step_size : Rat) (number_of_iterations : Nat)
    (shrink_factors : List Nat) (smoothing_sigmas : List Rat) :
    Except String RigidMultiModalRegistration :=
  if shrink_factors.length ≠ smoothing_sigmas.length then
    Except.error ("shrink_factors and smoothing_sigmas need to be same length")
  else
    Except.ok
      { number_of_histogram_bins := number_of_histogram_bins
        learning_rate := learning_rate
        step_size := step_size
        number_of_iterations := number_of_iterations
        shrink_factors := shrink_factors
        smoothing_sigmas := smoothing_sigmas
        verbose := false
        registration :=
          { numberOfHistogramBins := number_of_histogram_bins
            metricSamplingStrategyRandom := true
            metricSamplingPercentage := 1 / 10
            interpolator := Interp.linear
            learningRate := learning_rate
            numberOfIterations := number_of_iterations
            convergenceMinimumValue := 1 / 1000000
            convergenceWindowSize := 10
            estimateLearningRate := false
            scalesFromPhysicalShift := true
            shrinkFactors := shrink_factors
            smoothingSigmas := smoothing_sigmas
            smoothingSigmasInPhysicalUnits := true } }

/-- Message printed in verbose mode with the final metric value
(registration.py line 142). -/
def finalMetricMessage (outcome : EngineOutcome) : String :=
  "RigidMultiModalRegistration: Final metric value: " ++ toString outcome.metricValue

/-- Message printed in verbose mode with the stopping condition description
(registration.py lines 143-144). -/
def stopConditionMessage (outcome : EngineOutcome) : String :=
  "Optimizer stopping condition: " ++ outcome.stopConditionDescription

/-- Non-convergence warning (registration.py line 146). -/
def nonConvergenceMessage : String :=
  "RigidMultiModalRegistration: Optimizer terminated at number of iterations and did not converge!"

/-- Result of one `execute` call: the returned image, the diagnostic messages
printed, and the two images handed to the engine run. -/
structure ExecResult where
  result : Image
  messages : List String
  engineFixed : Image
  engineMoving : Image
deriving DecidableEq, Repr

/-- `RigidMultiModalRegistration.execute` (registration.py lines 112-148).
Raises ValueError when `params` is None; otherwise normalizes the fixed and
the moving image (rebinding the local `image`, as the source does), runs the
engine on the Float32 casts of the normalized images (the run itself is
external, represented by `outcome`), prints the verbose or the
non-convergence diagnostics, and returns the normalized moving image
resampled onto the original fixed image with the engine's final transform,
linear interpolation, default pixel value 0 and the (normalized) moving
image's pixel type. -/
def RigidMultiModalRegistration.execute (self : RigidMultiModalRegistration)
    (image : Image) (params : Option RigidMultiModalRegistrationParams)
    (outcome : EngineOutcome) : Except String ExecResult :=
  match params with
  | none => Except.error ("params is not defined")
  | some p =>
      let fixed_image := Image.normalize p.fixed_image
      let image := Image.normalize image
      let transform := outcome.finalTransform
      let messages :=
        if self.verbose then
          [finalMetricMessage outcome, stopConditionMessage outcome]
        else if self.number_of_iterations = outcome.optimizerIteration then
          [nonConvergenceMessage]
        else []
      Except.ok
        { result := Image.resample image p.fixed_image transform Interp.linear 0
            image.getPixelIDValue
          messages := messages
          engineFixed := Image.cast fixed_image sitkFloat32
          engineMoving := Image.cast image sitkFloat32 }

/-- A reference to an image handle in the caller's heap. -/
abbrev Ref := Nat

/-- A heap of image handles: the caller's live objects.  The external toolkit
operations are functional (each produces a new image object), so every
operation allocates a new cell and existing cells are never written. -/
structure Heap where
  cells : List Image
deriving DecidableEq, Repr

/-- Cell lookup. -/
def Heap.get? (h : Heap) (r : Ref) : Option Image := h.cells.get? r

/-- Total cell lookup with a default handle. -/
def Heap.getD (h : Heap) (r : Ref) : Image := (h.get? r).getD (Image.base 0 0)

/-- Allocate a fresh cell holding `v`; returns the new heap and the new
cell's reference. -/
def Heap.alloc (h : Heap) (v : Image) : Heap × Ref :=
  (Heap.mk (h.cells ++ [v]), h.cells.length)

/-- Params object for the heap-level view of `execute`: the fixed image is a
reference into the caller's heap. -/
structure HeapParams where
  fixed_image : Ref
  plot_directory_path : String := ""
deriving DecidableEq, Repr

/-- Heap-level view of `RigidMultiModalRegistration.execute` (registration.py
lines 112-148), with the object allocations made explicit: the cast for the
transform initializer (line 126), the two normalizations (lines 132-133),
the two Float32 casts handed to the engine (lines 138-139) and the resampled
result (line 148) each create a new image object.  The source contains no
assignment to `params` or to any existing image object, so the params record
is threaded through unchanged and the heap only grows. -/
def RigidMultiModalRegistration.executeHeap (self : RigidMultiModalRegistration)
    (imageRef : Ref) (params : Option HeapParams) (outcome : EngineOutcome)
    (h : Heap) : Except String (Ref × Heap × HeapParams) :=
  match params with
  | none => Except.error ("params is not defined")
  | some p =>
      let fixedVal := h.getD p.fixed_image
      let movingVal := h.getD imageRef
      let (h1, _castFixedRef) := h.alloc (Image.cast fixedVal movingVal.getPixelIDValue)
      let (h2, fixedNormRef) := h1.alloc (Image.normalize fixedVal)
      let (h3, movingNormRef) := h2.alloc (Image.normalize movingVal)
      let (h4, _engineFixedRef) := h3.alloc (Image.cast (h3.getD fixedNormRef) sitkFloat32)
      let (h5, _engineMovingRef) := h4.alloc (Image.cast (h4.getD movingNormRef) sitkFloat32)
      let _ := self
      let (h6, resultRef) := h5.alloc
        (Image.resample (h5.getD movingNormRef) (h5.getD p.fixed_image)
          outcome.finalTransform Interp.linear 0
          (h5.getD movingNormRef).getPixelIDValue)
      Except.ok (resultRef, h6, p)

/-- Accumulator state of `RegistrationPlotter` (registration.py lines
184-185): the metric value history and the iteration indices at which the
resolution level changed. -/
structure PlotterState where
  metric_values : List Rat
  multires_iterations : List Nat
deriving DecidableEq, Repr

/-- Zero-padded decimal of width at least 3, as Python `format(n, '03d')`
renders a natural number. -/
def format03d (n : Nat) : String :=
  let s := toString n
  if s.length < 3 then String.mk (List.replicate (3 - s.length) '0') ++ s else s

/-- `RegistrationPlotter._start_plot` (registration.py lines 200-203): the
StartEvent callback resets both accumulators to empty. -/
def startPlot (_s : PlotterState) : PlotterState :=
  { metric_values := [], multires_iterations := [] }

/-- `RegistrationPlotter._end_plot` (registration.py lines 196-198): the
EndEvent callback only closes the figure; the accumulators are untouched. -/
def endPlot (s : PlotterState) : PlotterState := s

/-- `RegistrationPlotter._update_multiresolution_iterations` (registration.py
lines 205-207): appends the current length of the metric value history. -/
def updateMultiresolutionIterations (s : PlotterState) : PlotterState :=
  { s with multires_iterations := s.multires_iterations ++ [s.metric_values.length] }

/-- `RegistrationPlotter._save_plot` (registration.py lines 209-258): appends
the current metric value, renders the composite figure (external) and writes
it to `file_name_prefix + format(len(self.metric_values), '03d') + '.png'`
(line 258).  Returns the new state and the file path written. -/
def savePlot (s : PlotterState) (metricValue : Rat) (pfx : String) :
    PlotterState × List String :=
  let s2 := { s with metric_values := s.metric_values ++ [metricValue] }
  (s2, [pfx ++ format03d s2.metric_values.length ++ ".png"])

/-- The four engine events the plotter subscribes to (registration.py lines
187-194). -/
inductive RegEvent where
  | startEvent
  | endEvent
  | multiResolutionIterationEvent
  | iterationEvent (metricValue : Rat)
deriving DecidableEq, Repr

/-- Dispatch of one engine event to the registered callback, returning the
new plotter state and the file paths written. -/
def handleEvent (pfx : String) (s : PlotterState) : RegEvent → PlotterState × List String
  | RegEvent.startEvent => (startPlot s, [])
  | RegEvent.endEvent => (endPlot s, [])
  | RegEvent.multiResolutionIterationEvent => (updateMultiresolutionIterations s, [])
  | RegEvent.iterationEvent v => savePlot s v pfx

/-- Processing of an event sequence: engine callbacks run synchronously and
in order; the written file paths are concatenated in order. -/
def processEvents (pfx : String) (s : PlotterState) : List RegEvent → PlotterState × List String
  | [] => (s, [])
  | e :: rest =>
      let cur := handleEvent pfx s e
      let rest2 := processEvents pfx cur.1 rest
      (rest2.1, cur.2 ++ rest2.2)

/-- Number of iteration events in a sequence. -/
def countIterationEvents (events : List RegEvent) : Nat :=
  events.countP (fun e =>
    match e with
    | RegEvent.iterationEvent _ => true
    | _ => false)

/-- Plotter accumulator invariant: every recorded resolution-change marker is
at most the current length of the metric value history, and the markers are
pairwise non-decreasing. -/
def PlotterInv (s : PlotterState) : Prop :=
  (∀ m ∈ s.multires_iterations, m ≤ s.metric_values.length) ∧
  s.multires_iterations.Pairwise (· ≤ ·)

/-- A plain dense array as the plotting helpers see it: a shape and the
element values. -/
structure NpArray where
  shape : List Nat
  data : List Int
deriving DecidableEq, Repr

/-- Number of dimensions of an array. -/
def NpArray.ndim (a : NpArray) : Nat := a.shape.length

/-- Per-pixel mask value of `plot_2d_segmentation` (plotter.py lines
144-147), translated as the same sequence of conditional overwrites starting
from 0: 1 where the ground truth has the label and the segmentation does
not, 2 where both have it, 3 where only the segmentation has it. -/
def maskValue (ground_truth segmentation label : Int) : Nat :=
  let mask : Nat := 0
  let mask := if ground_truth = label ∧ segmentation ≠ label then 1 else mask
  let mask := if ground_truth = label ∧ segmentation = label then 2 else mask
  let mask := if ground_truth ≠ label ∧ segmentation = label then 3 else mask
  mask

/-- The fixed 3-color map of `plot_2d_segmentation` (plotter.py lines
160-161): red, green, blue. -/
def segColormapRGB : List (Nat × Nat × Nat) := [(1, 0, 0), (0, 1, 0), (0, 0, 1)]

/-- Color a mask value is drawn with: mask value 0 is masked out
(transparent background, plotter.py line 148); values 1..3 map through the
3-color map. -/
def maskColor : Nat → Option (Nat × Nat × Nat)
  | 0 => none
  | v => segColormapRGB.get? (v - 1)

/-- Output of a successful `plot_2d_segmentation` call: the computed mask,
its colors, and the file path written. -/
structure SegPlotResult where
  mask : List Nat
  overlayColors : List (Option (Nat × Nat × Nat))
  write : String
deriving DecidableEq, Repr

/-- `plot_2d_segmentation` (plotter.py lines 112-168): validates that the
three arrays share one shape and that the image is 2-dimensional before any
mask computation; on success computes the per-pixel mask and writes one file
at `path`. -/
def plot_2d_segmentation (path : String) (image ground_truth segmentation : NpArray)
    (_alpha : Rat) (label : Int) : Except String SegPlotResult :=
  if ¬ (image.shape = ground_truth.shape ∧ ground_truth.shape = segmentation.shape) then
    Except.error ("image, ground_truth, and segmentation must have equal shape")
  else if ¬ image.ndim = 2 then
    Except.error ("only 2-dimensional images supported")
  else
    let mask := List.zipWith (fun g s => maskValue g s label) ground_truth.data segmentation.data
    Except.ok { mask := mask, overlayColors := mask.map maskColor, write := path }

/-- An image as the histogram helpers see it: a list of slices along the
third axis, each slice given by its pixel values. -/
structure HImage where
  slices : List (List Int)
deriving DecidableEq, Repr

/-- `sitk.GetArrayFromImage` on the whole image: all slices. -/
def getArrayFromImage (img : HImage) : List (List Int) := img.slices

/-- `image[:, :, k]` followed by `GetArrayFromImage`: the pixel values of
slice `k`, with the Python wrap-around for negative indices; out of range is
an error. -/
def indexImageSlice (img : HImage) (k : Int) : Option (List Int) :=
  if 0 ≤ k then img.slices.get? k.toNat
  else
    let i : Int := (img.slices.length : Int) + k
    if 0 ≤ i then img.slices.get? i.toNat else none

/-- Output of a successful `plot_histogram` call: the flattened data the
histogram is computed over, the bin count, and the file path written. -/
structure HistPlotResult where
  data : List Int
  no_bins : Nat
  write : String
deriving DecidableEq, Repr

/-- `plot_histogram` (plotter.py lines 11-40): when `slice_no > -1` the data
is the selected slice, otherwise the whole image; the data is flattened and
one file is written at `path`. -/
def plot_histogram (path : String) (image : HImage) (no_bins : Nat) (slice_no : Int) :
    Except String HistPlotResult :=
  let selected : Option (List Int) :=
    if slice_no > -1 then indexImageSlice image slice_no
    else some (getArrayFromImage image).flatten
  match selected with
  | none => Except.error ("IndexError")
  | some d => Except.ok { data := d, no_bins := no_bins, write := path }

/-- Output of a successful `plot_histogram_overlay` call. -/
structure HistOverlayResult where
  data1 : List Int
  data2 : List Int
  no_bins : Nat
  write : String
deriving DecidableEq, Repr

/-- `plot_histogram_overlay` (plotter.py lines 43-77): same slice selection
as `plot_histogram`, applied to both images. -/
def plot_histogram_overlay (path : String) (image1 image2 : HImage) (no_bins : Nat)
    (slice_no : Int) : Except String HistOverlayResult :=
  let selected1 : Option (List Int) :=
    if slice_no > -1 then indexImageSlice image1 slice_no
    else some (getArrayFromImage image1).flatten
  let selected2 : Option (List Int) :=
    if slice_no > -1 then indexImageSlice image2 slice_no
    else some (getArrayFromImage image2).flatten
  match selected1, selected2 with
  | some d1, some d2 => Except.ok { data1 := d1, data2 := d2, no_bins := no_bins, write := path }
  | _, _ => Except.error ("IndexError")

/-! ## Helper lemmas -/

/-- The reset state satisfies the plotter accumulator invariant. -/
theorem plotterInv_startPlot (s : PlotterState) : PlotterInv (startPlot s) := by
  refine ⟨?_, ?_⟩ <;> simp [startPlot]

/-- Every single event callback preserves the plotter accumulator invariant. -/
theorem plotterInv_handleEvent (pfx : String) (s : PlotterState) (e : RegEvent)
    (hs : PlotterInv s) : PlotterInv (handleEvent pfx s e).1 := by
  obtain ⟨h1, h2⟩ := hs
  cases e with
  | startEvent => exact plotterInv_startPlot s
  | endEvent => exact ⟨h1, h2⟩
  | multiResolutionIterationEvent =>
      refine ⟨?_, ?_⟩
      · intro m hm
        show m ≤ s.metric_values.length
        have hm2 : m ∈ s.multires_iterations ++ [s.metric_values.length] := hm
        rcases List.mem_append.mp hm2 with hmem | hmem
        · exact h1 m hmem
        · simp at hmem
          omega
      · show List.Pairwise (· ≤ ·) (s.multires_iterations ++ [s.metric_values.length])
        refine List.pairwise_append.mpr ⟨h2, by simp, ?_⟩
        intro a ha b hb
        simp at hb
        subst hb
        exact h1 a ha
  | iterationEvent v =>
      refine ⟨?_, h2⟩
      intro m hm
      have := h1 m hm
      show m ≤ (s.metric_values ++ [v]).length
      simp
      omega

/-- Processing any event sequence preserves the plotter accumulator
invariant. -/
theorem plotterInv_processEvents (pfx : String) (s : PlotterState)
    (events : List RegEvent) (hs : PlotterInv s) :
    PlotterInv (processEvents pfx s events).1 := by
  induction events generalizing s with
  | nil => exact hs
  | cons e rest ih => exact ih (handleEvent pfx s e).1 (plotterInv_handleEvent pfx s e hs)

/-- The file paths written while processing a start-free event sequence are
the prefix followed by the successive zero-padded history lengths, counting
on from the current history length. -/
theorem processEvents_written_files (pfx : String) (events : List RegEvent)
    (s : PlotterState) (hns : ∀ e ∈ events, e ≠ RegEvent.startEvent) :
    (processEvents pfx s events).2 =
      (List.range' (s.metric_values.length + 1) (countIterationEvents events)).map
        (fun k => pfx ++ format03d k ++ ".png") := by
  induction events generalizing s with
  | nil => simp [processEvents, countIterationEvents]
  | cons e rest ih =>
      have hrest : ∀ x ∈ rest, x ≠ RegEvent.startEvent :=
        fun x hx => hns x (List.mem_cons_of_mem _ hx)
      cases e with
      | startEvent => exact absurd rfl (hns _ (List.mem_cons_self _ _))
      | endEvent =>
          simpa [processEvents, handleEvent, endPlot, countIterationEvents,
            List.countP_cons] using ih s hrest
      | multiResolutionIterationEvent =>
          simpa [processEvents, handleEvent, updateMultiresolutionIterations,
            countIterationEvents, List.countP_cons] using
            ih { s with multires_iterations :=
              s.multires_iterations ++ [s.metric_values.length] } hrest
      | iterationEvent v =>
          have h2 := ih { s with metric_values := s.metric_values ++ [v] } hrest
          simp [countIterationEvents, List.countP_cons] at h2 ⊢
          simp [processEvents, handleEvent, savePlot, List.range'_succ, h2]

/-! ## Claim theorems -/

/-- C1: with a params object present, `execute` returns the (locally
normalized) moving image resampled onto the fixed image's grid using the
engine's final transform and linear interpolation, with out-of-bounds
samples filled with 0, and the returned image's pixel type equals the moving
image's original pixel type. -/
theorem execute_returns_resampled_moving_image
    (self : RigidMultiModalRegistration) (image : Image)
    (p : RigidMultiModalRegistrationParams) (outcome : EngineOutcome) :
    (self.execute image (some p) outcome).map ExecResult.result =
      Except.ok (Image.resample (Image.normalize image) p.fixed_image
        outcome.finalTransform Interp.linear 0
        (Image.normalize image).getPixelIDValue) ∧
    (Image.resample (Image.normalize image) p.fixed_image outcome.finalTransform
        Interp.linear 0 (Image.normalize image).getPixelIDValue).getPixelIDValue =
      image.getPixelIDValue :=
  ⟨rfl, rfl⟩

/-- C2: construction raises the length-mismatch ValueError exactly when the
shrink-factor and smoothing-sigma sequences differ in length; for sequences
of equal length it succeeds and stores all six configuration fields. -/
theorem init_validates_sequence_lengths (bins : Nat) (lr step : Rat)
    (iters : Nat) (shrink : List Nat) (smooth : List Rat) :
    ((∃ e, RigidMultiModalRegistration.init bins lr step iters shrink smooth =
        Except.error e) ↔ shrink.length ≠ smooth.length) ∧
    (shrink.length = smooth.length → ∃ r,
      RigidMultiModalRegistration.init bins lr step iters shrink smooth =
        Except.ok r ∧
      r.number_of_histogram_bins = bins ∧ r.learning_rate = lr ∧
      r.step_size = step ∧ r.number_of_iterations = iters ∧
      r.shrink_factors = shrink ∧ r.smoothing_sigmas = smooth) := by
  unfold RigidMultiModalRegistration.init
  by_cases h : shrink.length = smooth.length <;> simp [h]

/-- C3: `execute` with an absent params object raises the ValueError
immediately, for every moving image and engine outcome. -/
theorem execute_fails_without_params (self : RigidMultiModalRegistration)
    (image : Image) (outcome : EngineOutcome) :
    self.execute image none outcome = Except.error ("params is not defined") :=
  rfl

/-- C4: the heap-level view of `execute` only allocates: every image handle
the caller already held is unchanged (the old heap is a prefix of the new
one), the returned image is a fresh handle, and the params object comes back
unchanged — the normalization is local to the call. -/
theorem executeHeap_preserves_caller_handles (self : RigidMultiModalRegistration)
    (imageRef : Ref) (p : HeapParams) (outcome : EngineOutcome) (h : Heap) :
    ∃ r h2, self.executeHeap imageRef (some p) outcome h = Except.ok (r, h2, p) ∧
      h2.cells.take h.cells.length = h.cells ∧ h.cells.length ≤ r := by
  refine ⟨_, _, rfl, ?_, ?_⟩
  · show (h.cells ++ [_] ++ [_] ++ [_] ++ [_] ++ [_] ++ [_]).take h.cells.length = h.cells
    rw [List.append_assoc, List.append_assoc, List.append_assoc, List.append_assoc,
      List.append_assoc]
    exact List.take_left h.cells _
  · show h.cells.length ≤ (h.cells ++ [_] ++ [_] ++ [_] ++ [_] ++ [_]).length
    simp

/-- C5: with a params object present, `execute` never fails: in verbose mode
it reports the final metric value and the stopping-condition description,
and otherwise it reports the non-convergence warning exactly when the
optimizer's iteration count equals the configured maximum. -/
theorem execute_reports_diagnostics (self : RigidMultiModalRegistration)
    (image : Image) (p : RigidMultiModalRegistrationParams)
    (outcome : EngineOutcome) :
    ∃ res, self.execute image (some p) outcome = Except.ok res ∧
      (self.verbose = true →
        res.messages = [finalMetricMessage outcome, stopConditionMessage outcome]) ∧
      (self.verbose = false →
        (res.messages = [nonConvergenceMessage] ↔
          self.number_of_iterations = outcome.optimizerIteration)) := by
  refine ⟨_, rfl, ?_, ?_⟩
  · intro hv
    simp [RigidMultiModalRegistration.execute, hv]
  · intro hv
    by_cases hn : self.number_of_iterations = outcome.optimizerIteration <;>
      simp [RigidMultiModalRegistration.execute, hv, hn, nonConvergenceMessage]

/-- C6: the run-start callback resets both accumulators to empty, the
resolution-change callback appends the current history length, and after any
event sequence following a run-start every recorded marker is at most the
current history length and the markers are non-decreasing. -/
theorem plotter_marker_invariant (pfx : String) (s : PlotterState)
    (events : List RegEvent) :
    startPlot s = { metric_values := [], multires_iterations := [] } ∧
    (updateMultiresolutionIterations s).multires_iterations =
      s.multires_iterations ++ [s.metric_values.length] ∧
    (∀ m ∈ (processEvents pfx (startPlot s) events).1.multires_iterations,
      m ≤ (processEvents pfx (startPlot s) events).1.metric_values.length) ∧
    (processEvents pfx (startPlot s) events).1.multires_iterations.Pairwise (· ≤ ·) := by
  have hinv := plotterInv_processEvents pfx (startPlot s) events (plotterInv_startPlot s)
  exact ⟨rfl, rfl, hinv.1, hinv.2⟩

/-- C7: after a run-start, the k-th iteration event writes the composite
image to the plot directory path followed by the 3-digit zero-padded index k
and the suffix .png, with k counted from 1. -/
theorem save_plot_file_names (pfx : String) (s : PlotterState)
    (events : List RegEvent) (hns : ∀ e ∈ events, e ≠ RegEvent.startEvent) :
    (processEvents pfx (startPlot s) events).2 =
      (List.range' 1 (countIterationEvents events)).map
        (fun k => pfx ++ format03d k ++ ".png") := by
  simpa [startPlot] using processEvents_written_files pfx events (startPlot s) hns

/-- Witness for C7 at a concrete event sequence: two iteration events with a
resolution change between them write 001 and 002. -/
theorem save_plot_file_names_witness :
    (processEvents ("plots/") (startPlot (PlotterState.mk [3] [1]))
        [RegEvent.iterationEvent 1, RegEvent.multiResolutionIterationEvent,
          RegEvent.iterationEvent 2]).2 =
      (List.range' 1 (countIterationEvents
          [RegEvent.iterationEvent 1, RegEvent.multiResolutionIterationEvent,
            RegEvent.iterationEvent 2])).map
        (fun k => ("plots/") ++ format03d k ++ ".png") :=
  save_plot_file_names ("plots/") (PlotterState.mk [3] [1])
    [RegEvent.iterationEvent 1, RegEvent.multiResolutionIterationEvent,
      RegEvent.iterationEvent 2] (by decide)

/-- C8: `plot_2d_segmentation` rejects inputs whose shapes are not all equal
or whose image is not 2-dimensional with a ValueError, before any mask is
computed and with no file written. -/
theorem plot_2d_segmentation_rejects_bad_inputs (path : String)
    (image ground_truth segmentation : NpArray) (alpha : Rat) (label : Int)
    (hbad : ¬ (image.shape = ground_truth.shape ∧
        ground_truth.shape = segmentation.shape) ∨ ¬ image.ndim = 2) :
    ∃ msg, plot_2d_segmentation path image ground_truth segmentation alpha label =
      Except.error msg := by
  unfold plot_2d_segmentation
  by_cases h1 : image.shape = ground_truth.shape ∧ ground_truth.shape = segmentation.shape
  · rcases hbad with hb | hb
    · exact absurd h1 hb
    · simp [h1, hb]
  · simp [h1]

/-- Witness for C8 at the spec's example: shapes (10,15) and (10,16). -/
theorem plot_2d_segmentation_rejects_bad_inputs_witness :
    ∃ msg, plot_2d_segmentation ("plot.png") (NpArray.mk [10, 15] [])
        (NpArray.mk [10, 16] []) (NpArray.mk [10, 15] []) (1 / 2) 1 =
      Except.error msg :=
  plot_2d_segmentation_rejects_bad_inputs ("plot.png") (NpArray.mk [10, 15] [])
    (NpArray.mk [10, 16] []) (NpArray.mk [10, 15] []) (1 / 2) 1
    (Or.inl (by decide))

/-- C9: the per-pixel mask value realizes the fixed 3-color classification:
1 (red) for under-segmentation, 2 (green) for correct segmentation, 3 (blue)
for over-segmentation and 0 (masked/transparent) for background; the four
cases are mutually exclusive and exhaustive. -/
theorem maskValue_classification (g s l : Int) :
    (maskValue g s l = 1 ↔ g = l ∧ ¬ s = l) ∧
    (maskValue g s l = 2 ↔ g = l ∧ s = l) ∧
    (maskValue g s l = 3 ↔ s = l ∧ ¬ g = l) ∧
    (maskValue g s l = 0 ↔ ¬ g = l ∧ ¬ s = l) ∧
    maskColor 1 = some (1, 0, 0) ∧ maskColor 2 = some (0, 1, 0) ∧
    maskColor 3 = some (0, 0, 1) ∧ maskColor 0 = none := by
  by_cases hg : g = l <;> by_cases hs : s = l <;>
    simp [maskValue, maskColor, segColormapRGB, hg, hs]

/-- C10: for every slice number at most -1 (not only the sentinel -1), both
histogram helpers compute over the whole image and succeed. -/
theorem histogram_whole_image_for_nonpositive_slice (path : String)
    (image image1 image2 : HImage) (no_bins : Nat) (slice_no : Int)
    (hs : slice_no ≤ -1) :
    plot_histogram path image no_bins slice_no =
      Except.ok (HistPlotResult.mk (getArrayFromImage image).flatten no_bins path) ∧
    plot_histogram_overlay path image1 image2 no_bins slice_no =
      Except.ok (HistOverlayResult.mk (getArrayFromImage image1).flatten
        (getArrayFromImage image2).flatten no_bins path) := by
  have hng : ¬ slice_no > -1 := by omega
  constructor <;> simp [plot_histogram, plot_histogram_overlay, hng]

/-- Witness for C10 at slice number -5. -/
theorem histogram_whole_image_for_nonpositive_slice_witness :
    plot_histogram ("hist.png") (HImage.mk [[1, 2], [3]]) 255 (-5) =
      Except.ok (HistPlotResult.mk
        (getArrayFromImage (HImage.mk [[1, 2], [3]])).flatten 255 ("hist.png")) ∧
    plot_histogram_overlay ("hist.png") (HImage.mk [[1, 2], [3]])
        (HImage.mk [[4], [5, 6]]) 255 (-5) =
      Except.ok (HistOverlayResult.mk
        (getArrayFromImage (HImage.mk [[1, 2], [3]])).flatten
        (getArrayFromImage (HImage.mk [[4], [5, 6]])).flatten 255 ("hist.png")) :=
  histogram_whole_image_for_nonpositive_slice ("hist.png") (HImage.mk [[1, 2], [3]])
    (HImage.mk [[1, 2], [3]]) (HImage.mk [[4], [5, 6]]) 255 (-5) (by decide)
